import Mathlib

/-!
Verification development for the `super-payment` invoicing backend.

The Go source is embedded shallowly:
* `float64` money amounts are modelled as exact rationals (`ℚ`); the claims under
  study concern the algebraic fee/tax/rounding algorithm, not bit-level IEEE drift.
* `time.Time` instants are modelled as integers (`ℤ`) with the usual order;
  `t.Before(u)` is `t < u`.  The Go zero `time.Time` is the integer `0`.
* `uint` identifiers are `Nat`; Go `int` pagination fields are `Int`
  (overflow is immaterial at the magnitudes involved).
* The MySQL database behind `MySQLRepository` is an explicit `RepoState` record of
  row lists plus `AUTO_INCREMENT` counters; each SQL statement of the source is a
  pure function on that state.  `fmt.Errorf` failures become `Except String` with
  the exact message strings of the source (`%w` wrapping is string concatenation,
  which is what `Error()` yields on a wrapped error).
-/

namespace SuperPayment

/-- Go `float64` monetary values, modelled as exact rationals. -/
abbrev Money := ℚ

/-- Go `time.Time` instants, modelled as integers with the usual order. -/
abbrev Time := ℤ

/-- `models.Company` (internal/models). -/
structure Company where
  id : Nat
  corporateName : String
  representative : String
  phoneNumber : String
  postalCode : String
  address : String
  createdAt : Time
  updatedAt : Time
deriving Repr, DecidableEq

/-- `models.User` (internal/models); `company` is the joined record, when loaded. -/
structure User where
  id : Nat
  companyId : Nat
  fullName : String
  email : String
  password : String
  createdAt : Time
  updatedAt : Time
  company : Option Company
deriving Repr, DecidableEq

/-- `models.BusinessPartner` (internal/models). -/
structure BusinessPartner where
  id : Nat
  companyId : Nat
  corporateName : String
  representative : String
  phoneNumber : String
  postalCode : String
  address : String
  createdAt : Time
  updatedAt : Time
deriving Repr, DecidableEq

/-- `models.InvoiceStatus`: the four enumerated values of the source and of the
`status ENUM(...)` column of the `invoices` table. -/
inductive InvoiceStatus where
  | unprocessed
  | processing
  | paid
  | error
deriving Repr, DecidableEq

/-- The string stored for each `models.InvoiceStatus` constant. -/
def InvoiceStatus.toString : InvoiceStatus → String
  | .unprocessed => "unprocessed"
  | .processing => "processing"
  | .paid => "paid"
  | .error => "error"

/-- `models.Invoice` (internal/models); `company` and `businessPartner` are the
joined records, when loaded (`nil` pointers otherwise). -/
structure Invoice where
  id : Nat
  companyId : Nat
  businessPartnerId : Nat
  issueDate : Time
  paymentAmount : Money
  fee : Money
  feeRate : Money
  consumptionTax : Money
  consumptionTaxRate : Money
  invoiceAmount : Money
  paymentDueDate : Time
  status : InvoiceStatus
  createdAt : Time
  updatedAt : Time
  company : Option Company
  businessPartner : Option BusinessPartner
deriving Repr, DecidableEq

/-- `models.CreateInvoiceRequest` with binding tags
`business_partner_id binding:"required"`, `payment_amount binding:"required,gt=0"`,
`payment_due_date binding:"required"`. -/
structure CreateInvoiceRequest where
  businessPartnerId : Nat
  paymentAmount : Money
  paymentDueDate : Time
deriving Repr, DecidableEq

/-- `models.GetInvoicesRequest`: optional filters plus pagination. -/
structure GetInvoicesRequest where
  startDate : Option Time
  endDate : Option Time
  status : Option String
  page : Int
  limit : Int
deriving Repr, DecidableEq

/-- `models.ErrorResponse`: the JSON error body written by the HTTP handlers. -/
structure ErrorResponse where
  error : String
  message : String
deriving Repr, DecidableEq

/-- The MySQL database state behind `MySQLRepository`: one list of rows per table
touched by the claims, plus the `AUTO_INCREMENT` counters of the tables written to. -/
structure RepoState where
  companies : List Company
  users : List User
  businessPartners : List BusinessPartner
  invoices : List Invoice
  nextBusinessPartnerId : Nat
  nextInvoiceId : Nat
deriving Repr, DecidableEq

/-- Row lookup `SELECT ... FROM companies WHERE id = ?`. -/
def RepoState.findCompany (st : RepoState) (id : Nat) : Option Company :=
  st.companies.find? (fun c => c.id == id)

/-- Row lookup `SELECT ... FROM users WHERE id = ?` (before the company join). -/
def RepoState.findUser (st : RepoState) (id : Nat) : Option User :=
  st.users.find? (fun u => u.id == id)

/-- Row lookup `SELECT ... FROM business_partners WHERE id = ?`. -/
def RepoState.findBusinessPartner (st : RepoState) (id : Nat) : Option BusinessPartner :=
  st.businessPartners.find? (fun p => p.id == id)

/-- Row lookup `SELECT ... FROM invoices WHERE i.id = ?` (before the joins). -/
def RepoState.findInvoice (st : RepoState) (id : Nat) : Option Invoice :=
  st.invoices.find? (fun i => i.id == id)

/-- `MySQLRepository.GetUserByID`: `SELECT u.*, c.* FROM users u JOIN companies c
ON u.company_id = c.id WHERE u.id = ?`; `sql.ErrNoRows` (including a row dropped by
the inner join) yields the error `"user not found"`. -/
def MySQLRepository.GetUserByID (st : RepoState) (id : Nat) : Except String User :=
  match st.findUser id with
  | none => Except.error "user not found"
  | some u =>
    match st.findCompany u.companyId with
    | none => Except.error "user not found"
    | some c => Except.ok { u with company := some c }

/-- `MySQLRepository.GetBusinessPartnerByID`: `SELECT ... FROM business_partners
WHERE id = ?`; `sql.ErrNoRows` yields `"business partner not found"`. -/
def MySQLRepository.GetBusinessPartnerByID (st : RepoState) (id : Nat) :
    Except String BusinessPartner :=
  match st.findBusinessPartner id with
  | none => Except.error "business partner not found"
  | some p => Except.ok p

/-- `MySQLRepository.GetInvoiceByID`: invoice row inner-joined with its company and
business partner; `sql.ErrNoRows` (including a row dropped by either join) yields
`"invoice not found"`. -/
def MySQLRepository.GetInvoiceByID (st : RepoState) (id : Nat) : Except String Invoice :=
  match st.findInvoice id with
  | none => Except.error "invoice not found"
  | some i =>
    match st.findCompany i.companyId with
    | none => Except.error "invoice not found"
    | some c =>
      match st.findBusinessPartner i.businessPartnerId with
      | none => Except.error "invoice not found"
      | some bp => Except.ok { i with company := some c, businessPartner := some bp }

/-- `MySQLRepository.CreateInvoice`: `INSERT INTO invoices ...` assigns the
`AUTO_INCREMENT` identifier and the server-side timestamps, then writes them back
onto the passed struct. -/
def MySQLRepository.CreateInvoice (st : RepoState) (now : Time) (invoice : Invoice) :
    Invoice × RepoState :=
  let stored := { invoice with id := st.nextInvoiceId, createdAt := now, updatedAt := now }
  (stored,
    { st with invoices := st.invoices ++ [stored], nextInvoiceId := st.nextInvoiceId + 1 })

/-- `MySQLRepository.CreateBusinessPartner`: `INSERT INTO business_partners ...`
assigns the `AUTO_INCREMENT` identifier and the server-side timestamps. -/
def MySQLRepository.CreateBusinessPartner (st : RepoState) (now : Time)
    (partner : BusinessPartner) : BusinessPartner × RepoState :=
  let stored :=
    { partner with id := st.nextBusinessPartnerId, createdAt := now, updatedAt := now }
  (stored,
    { st with businessPartners := st.businessPartners ++ [stored],
              nextBusinessPartnerId := st.nextBusinessPartnerId + 1 })

/-- The `WHERE` clause built by `MySQLRepository.GetInvoicesByCompanyID`:
`i.company_id = ?`, the two inner joins, and the optional conjunctive
`payment_due_date >= ?`, `payment_due_date <= ?`, `status = ?` predicates. -/
def invoiceRowMatches (st : RepoState) (companyId : Nat) (req : GetInvoicesRequest)
    (i : Invoice) : Bool :=
  i.companyId == companyId
    && (st.findCompany i.companyId).isSome
    && (st.findBusinessPartner i.businessPartnerId).isSome
    && (match req.startDate with
        | none => true
        | some s => decide (s ≤ i.paymentDueDate))
    && (match req.endDate with
        | none => true
        | some e => decide (i.paymentDueDate ≤ e))
    && (match req.status with
        | none => true
        | some s => i.status.toString == s)

/-- Stable insertion (descending by `payment_due_date`) used to realise
`ORDER BY i.payment_due_date DESC` as one concrete execution. -/
def insertByDueDateDesc (x : Invoice) : List Invoice → List Invoice
  | [] => [x]
  | y :: ys =>
    if y.paymentDueDate ≤ x.paymentDueDate then x :: y :: ys
    else y :: insertByDueDateDesc x ys

/-- Stable sort realising `ORDER BY i.payment_due_date DESC`. -/
def sortByDueDateDesc : List Invoice → List Invoice
  | [] => []
  | x :: xs => insertByDueDateDesc x (sortByDueDateDesc xs)

/-- Attach the joined `companies` and `business_partners` rows scanned for each
invoice row of the listing query. -/
def RepoState.attachJoins (st : RepoState) (i : Invoice) : Invoice :=
  { i with company := st.findCompany i.companyId,
           businessPartner := st.findBusinessPartner i.businessPartnerId }

/-- `MySQLRepository.GetInvoicesByCompanyID`: filtered, ordered listing; the source
appends `LIMIT ?` only when `req.Limit > 0` and `OFFSET ?` (with `(page-1)*limit`)
only when additionally `req.Page > 1`. -/
def MySQLRepository.GetInvoicesByCompanyID (st : RepoState) (companyId : Nat)
    (req : GetInvoicesRequest) : List Invoice :=
  let rows := st.invoices.filter (invoiceRowMatches st companyId req)
  let ordered := sortByDueDateDesc rows
  let paged :=
    if req.limit > 0 then
      (if req.page > 1 then ordered.drop ((req.page - 1) * req.limit).toNat
       else ordered).take req.limit.toNat
    else ordered
  paged.map st.attachJoins

/-- Go `math.Round`: nearest integer, half away from zero. -/
def goRound (x : ℚ) : ℚ :=
  if 0 ≤ x then ((⌊x + 1 / 2⌋ : ℤ) : ℚ) else ((⌈x - 1 / 2⌉ : ℤ) : ℚ)

/-- `models.ValidatePaymentDueDate`: rejects exactly when
`dueDate.Before(time.Now())`, i.e. when the due date is strictly before `now`. -/
def ValidatePaymentDueDate (now dueDate : Time) : Except String Unit :=
  if dueDate < now then Except.error "payment due date must be in the future"
  else Except.ok ()

/-- `models.CreateInvoiceRequest.Validate`: only the due-date check. -/
def CreateInvoiceRequest.Validate (now : Time) (req : CreateInvoiceRequest) :
    Except String Unit :=
  ValidatePaymentDueDate now req.paymentDueDate

/-- The invoice value built inside `InvoiceService.CreateInvoice` (internal/service):
the struct literal (rates fixed at 4% and 10%, status `unprocessed`, issue date set
to the current time) followed by the three calculation statements of the source —
`Fee = PaymentAmount * FeeRate`, `ConsumptionTax = Fee * ConsumptionTaxRate`, and
`InvoiceAmount = math.Round((PaymentAmount+Fee+ConsumptionTax)*100) / 100`. -/
def InvoiceService.buildInvoice (companyId : Nat) (now : Time)
    (req : CreateInvoiceRequest) : Invoice :=
  let invoice0 : Invoice :=
    { id := 0, companyId := companyId, businessPartnerId := req.businessPartnerId,
      issueDate := now, paymentAmount := req.paymentAmount,
      fee := 0, feeRate := 4 / 100, consumptionTax := 0, consumptionTaxRate := 10 / 100,
      invoiceAmount := 0, paymentDueDate := req.paymentDueDate,
      status := InvoiceStatus.unprocessed, createdAt := 0, updatedAt := 0,
      company := none, businessPartner := none }
  let invoice1 := { invoice0 with fee := invoice0.paymentAmount * invoice0.feeRate }
  let invoice2 :=
    { invoice1 with consumptionTax := invoice1.fee * invoice1.consumptionTaxRate }
  let roundedTotal :=
    goRound ((invoice2.paymentAmount + invoice2.fee + invoice2.consumptionTax) * 100) / 100
  { invoice2 with invoiceAmount := roundedTotal }

/-- `InvoiceService.CreateInvoice` (internal/service): resolve the acting user,
load and authorise the business partner, derive fee / consumption tax / rounded
invoice amount, persist, and re-read the joined invoice. -/
def InvoiceService.CreateInvoice (st : RepoState) (now : Time) (userID : Nat)
    (req : CreateInvoiceRequest) : Except String Invoice × RepoState :=
  match MySQLRepository.GetUserByID st userID with
  | Except.error e => (Except.error ("user not found: " ++ e), st)
  | Except.ok user =>
    match MySQLRepository.GetBusinessPartnerByID st req.businessPartnerId with
    | Except.error e => (Except.error ("business partner not found: " ++ e), st)
    | Except.ok partner =>
      if partner.companyId ≠ user.companyId then
        (Except.error "business partner does not belong to your company", st)
      else
        let invoice := InvoiceService.buildInvoice user.companyId now req
        let created := MySQLRepository.CreateInvoice st now invoice
        match MySQLRepository.GetInvoiceByID created.2 created.1.id with
        | Except.error e => (Except.error ("failed to get created invoice: " ++ e), created.2)
        | Except.ok joined => (Except.ok joined, created.2)

/-- `InvoiceService.GetInvoices` (internal/service): default / clamp the pagination
parameters, then delegate with the caller's company identifier injected. -/
def InvoiceService.GetInvoices (st : RepoState) (userID : Nat)
    (req : GetInvoicesRequest) : Except String (List Invoice) :=
  match MySQLRepository.GetUserByID st userID with
  | Except.error e => Except.error ("user not found: " ++ e)
  | Except.ok user =>
    let req := if req.page < 1 then { req with page := 1 } else req
    let req := if req.limit < 1 then { req with limit := 20 } else req
    let req := if req.limit > 100 then { req with limit := 100 } else req
    Except.ok (MySQLRepository.GetInvoicesByCompanyID st user.companyId req)

/-- `InvoiceService.GetInvoiceByID` (internal/service): load the invoice, then
disguise a cross-tenant hit as `"invoice not found"`. -/
def InvoiceService.GetInvoiceByID (st : RepoState) (userID invoiceID : Nat) :
    Except String Invoice :=
  match MySQLRepository.GetUserByID st userID with
  | Except.error e => Except.error ("user not found: " ++ e)
  | Except.ok user =>
    match MySQLRepository.GetInvoiceByID st invoiceID with
    | Except.error e => Except.error ("invoice not found: " ++ e)
    | Except.ok invoice =>
      if invoice.companyId ≠ user.companyId then Except.error "invoice not found"
      else Except.ok invoice

/-- `InvoiceService.CreateBusinessPartner` (internal/service): overwrite the
partner's `CompanyID` with the acting user's company before persisting. -/
def InvoiceService.CreateBusinessPartner (st : RepoState) (now : Time) (userID : Nat)
    (partner : BusinessPartner) : Except String BusinessPartner × RepoState :=
  match MySQLRepository.GetUserByID st userID with
  | Except.error e => (Except.error ("user not found: " ++ e), st)
  | Except.ok user =>
    let partner := { partner with companyId := user.companyId }
    let created := MySQLRepository.CreateBusinessPartner st now partner
    (Except.ok created.1, created.2)

/-- Gin `ShouldBindJSON` validation of the `binding` struct tags declared on
`models.CreateInvoiceRequest` (`required` on every field, `gt=0` on
`payment_amount`): `required` fails on a zero value, `gt=0` fails on a
non-positive amount.  The message strings abbreviate the validator's wording;
the handler surfaces them under the `validation_error` code either way. -/
def CreateInvoiceRequest.bindingError (req : CreateInvoiceRequest) : Option String :=
  if req.businessPartnerId = 0 then
    some "Field validation for BusinessPartnerID failed on the required tag"
  else if req.paymentAmount = 0 then
    some "Field validation for PaymentAmount failed on the required tag"
  else if req.paymentAmount ≤ 0 then
    some "Field validation for PaymentAmount failed on the gt tag"
  else if req.paymentDueDate = 0 then
    some "Field validation for PaymentDueDate failed on the required tag"
  else none

/-- `Handler.createInvoice` (internal/api) after authentication: bind the request
(binding-tag failures become `validation_error`), run
`CreateInvoiceRequest.Validate` (failures become `validation_error`), then call
the service (failures become `invoice_creation_failed`). -/
def Handler.createInvoice (st : RepoState) (now : Time) (userID : Nat)
    (req : CreateInvoiceRequest) : Except ErrorResponse Invoice × RepoState :=
  match req.bindingError with
  | some m => (Except.error { error := "validation_error", message := m }, st)
  | none =>
    match CreateInvoiceRequest.Validate now req with
    | Except.error m => (Except.error { error := "validation_error", message := m }, st)
    | Except.ok _ =>
      match InvoiceService.CreateInvoice st now userID req with
      | (Except.error m, st1) =>
        (Except.error { error := "invoice_creation_failed", message := m }, st1)
      | (Except.ok invoice, st1) => (Except.ok invoice, st1)

/-- Invoices listed before `a` have a `payment_due_date` at least as late:
the postcondition of `ORDER BY i.payment_due_date DESC`. -/
def DueDateDescSorted (l : List Invoice) : Prop :=
  l.Pairwise (fun a b => b.paymentDueDate ≤ a.paymentDueDate)

/-- Everything the SQL contract `ORDER BY i.payment_due_date DESC` promises about
the listing: the result is some permutation of the matching rows that is sorted
descending by `payment_due_date`.  No secondary sort key appears in the query, so
any such permutation is an admissible database answer. -/
def SqlOrderByDueDateDesc (rows result : List Invoice) : Prop :=
  result.Perm rows ∧ DueDateDescSorted result

/-- Test fixture: the tenant company of the acting user. -/
def sampleCompany1 : Company :=
  { id := 1, corporateName := "Alpha Trading", representative := "Aoki",
    phoneNumber := "03-1111-1111", postalCode := "100-0001", address := "Tokyo 1",
    createdAt := 0, updatedAt := 0 }

/-- Test fixture: a second, foreign tenant company. -/
def sampleCompany2 : Company :=
  { id := 2, corporateName := "Beta Works", representative := "Baba",
    phoneNumber := "03-2222-2222", postalCode := "100-0002", address := "Tokyo 2",
    createdAt := 0, updatedAt := 0 }

/-- Test fixture: the acting user, belonging to company 1. -/
def sampleUser1 : User :=
  { id := 1, companyId := 1, fullName := "Taro", email := "taro@alpha.example",
    password := "x", createdAt := 0, updatedAt := 0, company := none }

/-- Test fixture: a business partner of company 1. -/
def samplePartner1 : BusinessPartner :=
  { id := 1, companyId := 1, corporateName := "Gamma Supply", representative := "Goto",
    phoneNumber := "03-3333-3333", postalCode := "100-0003", address := "Tokyo 3",
    createdAt := 0, updatedAt := 0 }

/-- Test fixture: a business partner of the foreign company 2. -/
def samplePartner2 : BusinessPartner :=
  { id := 2, companyId := 2, corporateName := "Delta Goods", representative := "Doi",
    phoneNumber := "03-4444-4444", postalCode := "100-0004", address := "Tokyo 4",
    createdAt := 0, updatedAt := 0 }

/-- Test fixture: two companies, one user (company 1), one partner per company,
no invoices yet. -/
def sampleState : RepoState :=
  { companies := [sampleCompany1, sampleCompany2], users := [sampleUser1],
    businessPartners := [samplePartner1, samplePartner2], invoices := [],
    nextBusinessPartnerId := 3, nextInvoiceId := 1 }

/-- Test fixture: an invoice owned by the foreign company 2. -/
def crossInvoice : Invoice :=
  { id := 1, companyId := 2, businessPartnerId := 2, issueDate := 0,
    paymentAmount := 100, fee := 4, feeRate := 4 / 100, consumptionTax := 2 / 5,
    consumptionTaxRate := 10 / 100, invoiceAmount := 522 / 5, paymentDueDate := 30,
    status := InvoiceStatus.unprocessed, createdAt := 0, updatedAt := 0,
    company := none, businessPartner := none }

/-- Test fixture: `sampleState` plus the foreign-company invoice `crossInvoice`. -/
def crossState : RepoState :=
  { sampleState with invoices := [crossInvoice], nextInvoiceId := 2 }

/-- Test fixture: like `crossState` but with no invoice of that identifier at all. -/
def absentState : RepoState :=
  { sampleState with nextInvoiceId := 2 }

/-- Test fixture: an invoice row used to exhibit a `payment_due_date` tie. -/
def tieInvoiceA : Invoice :=
  { id := 1, companyId := 1, businessPartnerId := 1, issueDate := 0,
    paymentAmount := 1, fee := 0, feeRate := 4 / 100, consumptionTax := 0,
    consumptionTaxRate := 10 / 100, invoiceAmount := 1, paymentDueDate := 10,
    status := InvoiceStatus.unprocessed, createdAt := 0, updatedAt := 0,
    company := none, businessPartner := none }

/-- Test fixture: a second invoice row with the same `payment_due_date` as
`tieInvoiceA` but a different identifier. -/
def tieInvoiceB : Invoice :=
  { tieInvoiceA with id := 2 }

/-- A successful `GetUserByID` means the user's company row exists and is the one
joined onto the returned user. -/
theorem getUserByID_ok_spec {st : RepoState} {id : Nat} {user : User}
    (hu : MySQLRepository.GetUserByID st id = Except.ok user) :
    ∃ c, st.findCompany user.companyId = some c ∧ user.company = some c := by
  unfold MySQLRepository.GetUserByID at hu
  split at hu
  · exact absurd hu (by simp)
  · rename_i u heq
    split at hu
    · exact absurd hu (by simp)
    · rename_i c heqc
      rw [Except.ok.injEq] at hu
      subst hu
      exact ⟨c, heqc, rfl⟩

/-- A successful `GetBusinessPartnerByID` is exactly a successful row lookup. -/
theorem getBusinessPartnerByID_ok_spec {st : RepoState} {id : Nat}
    {partner : BusinessPartner}
    (hp : MySQLRepository.GetBusinessPartnerByID st id = Except.ok partner) :
    st.findBusinessPartner id = some partner := by
  unfold MySQLRepository.GetBusinessPartnerByID at hp
  split at hp
  · exact absurd hp (by simp)
  · rename_i p heq
    rw [Except.ok.injEq] at hp
    subst hp
    exact heq

/-- The built invoice carries the acting user's company identifier. -/
theorem buildInvoice_companyId (cid : Nat) (now : Time) (req : CreateInvoiceRequest) :
    (InvoiceService.buildInvoice cid now req).companyId = cid := rfl

/-- The built invoice's fee is the exact 4% product, unrounded. -/
theorem buildInvoice_fee (cid : Nat) (now : Time) (req : CreateInvoiceRequest) :
    (InvoiceService.buildInvoice cid now req).fee = req.paymentAmount * (4 / 100) := rfl

/-- The built invoice's consumption tax is the exact 10%-of-fee product, unrounded. -/
theorem buildInvoice_tax (cid : Nat) (now : Time) (req : CreateInvoiceRequest) :
    (InvoiceService.buildInvoice cid now req).consumptionTax
      = req.paymentAmount * (4 / 100) * (10 / 100) := rfl

/-- The built invoice's total is the rounded sum. -/
theorem buildInvoice_total (cid : Nat) (now : Time) (req : CreateInvoiceRequest) :
    (InvoiceService.buildInvoice cid now req).invoiceAmount
      = goRound ((req.paymentAmount + req.paymentAmount * (4 / 100)
          + req.paymentAmount * (4 / 100) * (10 / 100)) * 100) / 100 := rfl

/-- Reading back an invoice just inserted with a fresh identifier returns that
invoice joined with its company and business partner rows. -/
theorem getInvoiceByID_append (st : RepoState) (now : Time) (inv : Invoice)
    (c : Company) (p : BusinessPartner)
    (hfresh : ∀ i ∈ st.invoices, i.id ≠ st.nextInvoiceId)
    (hc : st.findCompany inv.companyId = some c)
    (hbp : st.findBusinessPartner inv.businessPartnerId = some p) :
    MySQLRepository.GetInvoiceByID (MySQLRepository.CreateInvoice st now inv).2
        (MySQLRepository.CreateInvoice st now inv).1.id =
      Except.ok { inv with id := st.nextInvoiceId, createdAt := now, updatedAt := now,
                           company := some c, businessPartner := some p } := by
  have hnone : st.invoices.find? (fun i => i.id == st.nextInvoiceId) = none :=
    List.find?_eq_none.mpr (fun i hi => by simp [hfresh i hi])
  have hfind : (MySQLRepository.CreateInvoice st now inv).2.findInvoice
      (MySQLRepository.CreateInvoice st now inv).1.id
      = some ({ inv with id := st.nextInvoiceId, createdAt := now, updatedAt := now }) := by
    show (st.invoices ++
        [{ inv with id := st.nextInvoiceId, createdAt := now, updatedAt := now }]).find?
        (fun (i : Invoice) => i.id == st.nextInvoiceId) = _
    rw [List.find?_append, hnone, Option.none_or, List.find?_cons_of_pos _ (by simp)]
  unfold MySQLRepository.GetInvoiceByID
  rw [hfind]
  dsimp only
  rw [show (MySQLRepository.CreateInvoice st now inv).2.findCompany inv.companyId
      = some c from hc]
  dsimp only
  rw [show (MySQLRepository.CreateInvoice st now inv).2.findBusinessPartner
      inv.businessPartnerId = some p from hbp]

/-- Happy path of `InvoiceService.CreateInvoice`: with the acting user resolved, the
partner authorised, and a fresh invoice identifier, the service persists exactly one
invoice carrying the derived fee, tax, rounded total, `unprocessed` status and the
user's company, and returns it joined. -/
theorem createInvoice_ok_spec {st : RepoState} {now : Time} {userID : Nat}
    {req : CreateInvoiceRequest} {user : User} {partner : BusinessPartner}
    (hu : MySQLRepository.GetUserByID st userID = Except.ok user)
    (hp : MySQLRepository.GetBusinessPartnerByID st req.businessPartnerId = Except.ok partner)
    (hsame : partner.companyId = user.companyId)
    (hfresh : ∀ i ∈ st.invoices, i.id ≠ st.nextInvoiceId) :
    ∃ inv st1, InvoiceService.CreateInvoice st now userID req = (Except.ok inv, st1) ∧
      inv.paymentAmount = req.paymentAmount ∧
      inv.fee = req.paymentAmount * (4 / 100) ∧
      inv.consumptionTax = req.paymentAmount * (4 / 100) * (10 / 100) ∧
      inv.invoiceAmount =
        goRound ((req.paymentAmount + req.paymentAmount * (4 / 100)
          + req.paymentAmount * (4 / 100) * (10 / 100)) * 100) / 100 ∧
      inv.feeRate = 4 / 100 ∧ inv.consumptionTaxRate = 10 / 100 ∧
      inv.companyId = user.companyId ∧ inv.status = InvoiceStatus.unprocessed ∧
      inv.paymentDueDate = req.paymentDueDate ∧ inv.issueDate = now ∧
      inv.id = st.nextInvoiceId ∧
      st1.companies = st.companies ∧ st1.users = st.users ∧
      st1.businessPartners = st.businessPartners ∧
      st1.invoices = st.invoices ++
        [{ inv with company := none, businessPartner := none }] := by
  obtain ⟨c, hc, hcu⟩ := getUserByID_ok_spec hu
  have hbp := getBusinessPartnerByID_ok_spec hp
  unfold InvoiceService.CreateInvoice
  rw [hu, hp]
  dsimp only
  rw [if_neg (not_not_intro hsame)]
  rw [getInvoiceByID_append st now (InvoiceService.buildInvoice user.companyId now req)
    c partner hfresh hc hbp]
  dsimp only
  refine ⟨_, _, rfl, ?_, ?_, ?_, ?_, ?_, ?_, ?_, ?_, ?_, ?_, ?_, rfl, rfl, rfl, ?_⟩
  · exact rfl
  · exact rfl
  · exact rfl
  · exact rfl
  · exact rfl
  · exact rfl
  · exact rfl
  · exact rfl
  · exact rfl
  · exact rfl
  · exact rfl
  · exact rfl



/-- Claim C1: for every positive `paymentAmount`, invoice creation computes
`fee = paymentAmount * 0.04` with no rounding, `consumptionTax = fee * 0.10` with
no rounding, and `invoiceAmount = round(paymentAmount + fee + consumptionTax, 2)`;
concretely, input 12345 yields fee 493.8 (2469/5), tax 49.38 (2469/50) and total
12888.18 (644409/50). -/
theorem createInvoice_computes_fee_tax_and_rounded_total
    (st : RepoState) (now : Time) (userID : Nat) (req : CreateInvoiceRequest)
    (user : User) (partner : BusinessPartner)
    (hpos : 0 < req.paymentAmount)
    (hu : MySQLRepository.GetUserByID st userID = Except.ok user)
    (hp : MySQLRepository.GetBusinessPartnerByID st req.businessPartnerId = Except.ok partner)
    (hsame : partner.companyId = user.companyId)
    (hfresh : ∀ i ∈ st.invoices, i.id ≠ st.nextInvoiceId) :
    ∃ inv st1, InvoiceService.CreateInvoice st now userID req = (Except.ok inv, st1) ∧
      inv.fee = req.paymentAmount * (4 / 100) ∧
      inv.consumptionTax = inv.fee * (10 / 100) ∧
      inv.invoiceAmount =
        goRound ((req.paymentAmount + inv.fee + inv.consumptionTax) * 100) / 100 ∧
      (req.paymentAmount = 12345 →
        inv.fee = 2469 / 5 ∧ inv.consumptionTax = 2469 / 50 ∧
        inv.invoiceAmount = 644409 / 50) := by
  obtain ⟨inv, st1, hrun, hpa, hfee, htax, htotal, hrest⟩ :=
    createInvoice_ok_spec hu hp hsame hfresh
  refine ⟨inv, st1, hrun, hfee, ?_, ?_, ?_⟩
  · rw [htax, hfee]
  · rw [hfee, htax, htotal]
  · intro h12345
    rw [hfee, htax, htotal, h12345]
    norm_num [goRound]

theorem createInvoice_computes_fee_tax_and_rounded_total_witness :
    0 < (12345 : ℚ) ∧
    ∃ inv st1, InvoiceService.CreateInvoice sampleState 5 1
        { businessPartnerId := 1, paymentAmount := 12345, paymentDueDate := 30 }
        = (Except.ok inv, st1) ∧
      inv.fee = 2469 / 5 ∧ inv.consumptionTax = 2469 / 50 ∧
      inv.invoiceAmount = 644409 / 50 := by
  refine ⟨by norm_num, ?_⟩
  obtain ⟨inv, st1, hrun, hfee, htax, htotal, hconc⟩ :=
    createInvoice_computes_fee_tax_and_rounded_total sampleState 5 1
      { businessPartnerId := 1, paymentAmount := 12345, paymentDueDate := 30 }
      { sampleUser1 with company := some sampleCompany1 } samplePartner1
      (by norm_num) rfl rfl rfl (by simp [sampleState])
  obtain ⟨hf, ht, ha⟩ := hconc rfl
  exact ⟨inv, st1, hrun, hf, ht, ha⟩

/-- Claim C2: if the named business partner exists but belongs to a company other
than the acting user's, `CreateInvoice` fails with the forbidden message
"business partner does not belong to your company" and the repository state is
returned unchanged, so no invoice is persisted. -/
theorem createInvoice_foreign_partner_forbidden
    (st : RepoState) (now : Time) (userID : Nat) (req : CreateInvoiceRequest)
    (user : User) (partner : BusinessPartner)
    (hu : MySQLRepository.GetUserByID st userID = Except.ok user)
    (hp : MySQLRepository.GetBusinessPartnerByID st req.businessPartnerId = Except.ok partner)
    (hdiff : partner.companyId ≠ user.companyId) :
    InvoiceService.CreateInvoice st now userID req
      = (Except.error "business partner does not belong to your company", st) := by
  unfold InvoiceService.CreateInvoice
  rw [hu, hp]
  dsimp only
  rw [if_pos hdiff]

theorem createInvoice_foreign_partner_forbidden_witness :
    InvoiceService.CreateInvoice sampleState 5 1
        { businessPartnerId := 2, paymentAmount := 100, paymentDueDate := 30 }
      = (Except.error "business partner does not belong to your company", sampleState) :=
  createInvoice_foreign_partner_forbidden sampleState 5 1
    { businessPartnerId := 2, paymentAmount := 100, paymentDueDate := 30 }
    { sampleUser1 with company := some sampleCompany1 } samplePartner2
    rfl rfl (by decide)



/-- Claim C3, counterexample: the cross-tenant read fails with message
"invoice not found" while the absent-identifier read fails with the wrapped message
"invoice not found: invoice not found", so the two failures are distinguishable by
their exact error strings, contrary to the claim's indistinguishability. -/
theorem getInvoice_cross_tenant_message_distinguishable :
    InvoiceService.GetInvoiceByID crossState 1 1 = Except.error "invoice not found" ∧
    InvoiceService.GetInvoiceByID absentState 1 1
      = Except.error "invoice not found: invoice not found" ∧
    ("invoice not found" : String) ≠ "invoice not found: invoice not found" :=
  ⟨rfl, rfl, by decide⟩

/-- Claim C3, amended: for an existing invoice owned by a foreign company,
`GetInvoiceByID` fails with the bare not-found message "invoice not found" — never
a forbidden error; the absent-identifier case is also a not-found failure but
carries an extra wrapper prefix, so the two messages differ. -/
theorem getInvoice_cross_tenant_not_found
    (st : RepoState) (userID invoiceID : Nat) (user : User) (inv : Invoice)
    (hu : MySQLRepository.GetUserByID st userID = Except.ok user)
    (hi : MySQLRepository.GetInvoiceByID st invoiceID = Except.ok inv)
    (hdiff : inv.companyId ≠ user.companyId) :
    InvoiceService.GetInvoiceByID st userID invoiceID
      = Except.error "invoice not found" := by
  unfold InvoiceService.GetInvoiceByID
  rw [hu, hi]
  dsimp only
  rw [if_pos hdiff]

theorem getInvoice_cross_tenant_not_found_witness :
    InvoiceService.GetInvoiceByID crossState 1 1 = Except.error "invoice not found" :=
  getInvoice_cross_tenant_not_found crossState 1 1
    { sampleUser1 with company := some sampleCompany1 }
    { crossInvoice with company := some sampleCompany2, businessPartner := some samplePartner2 }
    rfl rfl (by decide)

/-- Claim C10: `CreateBusinessPartner` overwrites the partner's `company_id` with
the acting user's company before persisting, so whatever company identifier the
caller supplies, the stored partner belongs to the acting user's company. -/
theorem createBusinessPartner_company_id_overwritten
    (st : RepoState) (now : Time) (userID : Nat) (partner : BusinessPartner) (user : User)
    (hu : MySQLRepository.GetUserByID st userID = Except.ok user) :
    ∃ p, InvoiceService.CreateBusinessPartner st now userID partner
        = (Except.ok p,
           { st with businessPartners := st.businessPartners ++ [p],
                     nextBusinessPartnerId := st.nextBusinessPartnerId + 1 }) ∧
      p.companyId = user.companyId ∧
      p.corporateName = partner.corporateName ∧
      p.id = st.nextBusinessPartnerId := by
  unfold InvoiceService.CreateBusinessPartner
  rw [hu]
  dsimp only [MySQLRepository.CreateBusinessPartner]
  exact ⟨_, rfl, rfl, rfl, rfl⟩

theorem createBusinessPartner_company_id_overwritten_witness :
    ∃ p, InvoiceService.CreateBusinessPartner sampleState 5 1
        { samplePartner2 with companyId := 99 }
        = (Except.ok p,
           { sampleState with businessPartners := sampleState.businessPartners ++ [p],
                              nextBusinessPartnerId := 4 }) ∧
      p.companyId = 1 ∧ p.corporateName = "Delta Goods" ∧ p.id = 3 :=
  createBusinessPartner_company_id_overwritten sampleState 5 1
    { samplePartner2 with companyId := 99 }
    { sampleUser1 with company := some sampleCompany1 } rfl



/-- Claim C5: a create-invoice request with `paymentAmount = 0` or negative is
rejected with a `validation_error`, while `paymentAmount = 0.01` passes the amount
validation and (with the remaining inputs valid) invoice creation succeeds. -/
theorem createInvoice_payment_amount_validation
    (st : RepoState) (now : Time) (userID : Nat) (req : CreateInvoiceRequest)
    (user : User) (partner : BusinessPartner) :
    ((req.paymentAmount = 0 ∨ req.paymentAmount < 0) →
      ∃ m, Handler.createInvoice st now userID req
        = (Except.error { error := "validation_error", message := m }, st)) ∧
    (req.paymentAmount = 1 / 100 →
      now ≤ req.paymentDueDate →
      req.paymentDueDate ≠ 0 →
      req.businessPartnerId ≠ 0 →
      MySQLRepository.GetUserByID st userID = Except.ok user →
      MySQLRepository.GetBusinessPartnerByID st req.businessPartnerId = Except.ok partner →
      partner.companyId = user.companyId →
      (∀ i ∈ st.invoices, i.id ≠ st.nextInvoiceId) →
      ∃ inv, (Handler.createInvoice st now userID req).1 = Except.ok inv) := by
  constructor
  · intro hneg
    unfold Handler.createInvoice CreateInvoiceRequest.bindingError
    by_cases hb : req.businessPartnerId = 0
    · rw [if_pos hb]
      exact ⟨_, rfl⟩
    · rw [if_neg hb]
      rcases hneg with h0 | hneg
      · rw [if_pos h0]
        exact ⟨_, rfl⟩
      · rw [if_neg (ne_of_lt hneg), if_pos (le_of_lt hneg)]
        exact ⟨_, rfl⟩
  · intro hpenny hle hdue0 hb hu hp hsame hfresh
    unfold Handler.createInvoice CreateInvoiceRequest.bindingError
    rw [if_neg hb, if_neg (by rw [hpenny]; norm_num),
      if_neg (by rw [hpenny]; norm_num), if_neg hdue0]
    dsimp only
    unfold CreateInvoiceRequest.Validate ValidatePaymentDueDate
    rw [if_neg (not_lt.mpr hle)]
    dsimp only
    obtain ⟨inv, st1, hrun, hrest⟩ := createInvoice_ok_spec hu hp hsame hfresh
    rw [hrun]
    exact ⟨inv, rfl⟩

theorem createInvoice_payment_amount_validation_witness :
    (∃ m, Handler.createInvoice sampleState 5 1
        { businessPartnerId := 1, paymentAmount := 0, paymentDueDate := 30 }
        = (Except.error { error := "validation_error", message := m }, sampleState)) ∧
    (∃ m, Handler.createInvoice sampleState 5 1
        { businessPartnerId := 1, paymentAmount := -5, paymentDueDate := 30 }
        = (Except.error { error := "validation_error", message := m }, sampleState)) ∧
    (∃ inv, (Handler.createInvoice sampleState 5 1
        { businessPartnerId := 1, paymentAmount := 1 / 100, paymentDueDate := 30 }).1
        = Except.ok inv) := by
  refine ⟨?_, ?_, ?_⟩
  · exact (createInvoice_payment_amount_validation sampleState 5 1
      { businessPartnerId := 1, paymentAmount := 0, paymentDueDate := 30 }
      { sampleUser1 with company := some sampleCompany1 } samplePartner1).1 (Or.inl rfl)
  · exact (createInvoice_payment_amount_validation sampleState 5 1
      { businessPartnerId := 1, paymentAmount := -5, paymentDueDate := 30 }
      { sampleUser1 with company := some sampleCompany1 } samplePartner1).1
      (Or.inr (by norm_num))
  · exact (createInvoice_payment_amount_validation sampleState 5 1
      { businessPartnerId := 1, paymentAmount := 1 / 100, paymentDueDate := 30 }
      { sampleUser1 with company := some sampleCompany1 } samplePartner1).2
      rfl (by decide) (by decide) (by decide) rfl rfl rfl (by simp [sampleState])



/-- Claim C6, counterexample: a due date exactly equal to the current time passes
`CreateInvoiceRequest.Validate` (the source checks the strict `Before(now)`),
although the claim requires every due date not strictly after now to be
rejected. -/
theorem validate_due_date_equal_now_accepted :
    CreateInvoiceRequest.Validate 5
        { businessPartnerId := 1, paymentAmount := 100, paymentDueDate := 5 }
      = Except.ok () := rfl

/-- Claim C6, amended: a due date strictly before the current time is rejected
with a `validation_error` carrying the due-date message; a due date equal to now
or later is never rejected as a validation error. -/
theorem createInvoice_due_date_boundary
    (st : RepoState) (now : Time) (userID : Nat) (req : CreateInvoiceRequest)
    (hbind : req.bindingError = none) :
    (req.paymentDueDate < now →
      Handler.createInvoice st now userID req
        = (Except.error { error := "validation_error",
                          message := "payment due date must be in the future" }, st)) ∧
    (now ≤ req.paymentDueDate →
      ∀ e, (Handler.createInvoice st now userID req).1
        ≠ Except.error { error := "validation_error", message := e }) := by
  constructor
  · intro hlt
    unfold Handler.createInvoice
    rw [hbind]
    dsimp only
    unfold CreateInvoiceRequest.Validate ValidatePaymentDueDate
    rw [if_pos hlt]
  · intro hle e
    unfold Handler.createInvoice
    rw [hbind]
    dsimp only
    unfold CreateInvoiceRequest.Validate ValidatePaymentDueDate
    rw [if_neg (not_lt.mpr hle)]
    dsimp only
    rcases h : InvoiceService.CreateInvoice st now userID req with ⟨res, st1⟩
    rcases res with m | inv
    · dsimp only
      intro heq
      rw [Except.error.injEq, ErrorResponse.mk.injEq] at heq
      exact absurd heq.1 (by decide)
    · dsimp only
      exact fun heq => Except.noConfusion heq

theorem createInvoice_due_date_boundary_witness :
    Handler.createInvoice sampleState 5 1
        { businessPartnerId := 1, paymentAmount := 100, paymentDueDate := 3 }
      = (Except.error { error := "validation_error",
                        message := "payment due date must be in the future" }, sampleState) ∧
    (Handler.createInvoice sampleState 5 1
        { businessPartnerId := 1, paymentAmount := 100, paymentDueDate := 7 }).1
      ≠ Except.error { error := "validation_error",
                       message := "payment due date must be in the future" } := by
  constructor
  · exact (createInvoice_due_date_boundary sampleState 5 1
      { businessPartnerId := 1, paymentAmount := 100, paymentDueDate := 3 }
      (by norm_num [CreateInvoiceRequest.bindingError])).1 (by decide)
  · exact (createInvoice_due_date_boundary sampleState 5 1
      { businessPartnerId := 1, paymentAmount := 100, paymentDueDate := 7 }
      (by norm_num [CreateInvoiceRequest.bindingError])).2 (by decide) _



/-- Claim C9: the rounding applied to the invoice total is half-away-from-zero —
a sum landing exactly on the half cent `k + 1/2` is stored as `(k+1)/100` for
positive amounts — and the rounding touches only `invoice_amount`: the persisted
fee and consumption tax are the exact unrounded products. -/
theorem createInvoice_rounds_half_away_from_zero
    (st : RepoState) (now : Time) (userID : Nat) (req : CreateInvoiceRequest)
    (user : User) (partner : BusinessPartner) (k : ℤ)
    (hpos : 0 < req.paymentAmount)
    (hu : MySQLRepository.GetUserByID st userID = Except.ok user)
    (hp : MySQLRepository.GetBusinessPartnerByID st req.businessPartnerId = Except.ok partner)
    (hsame : partner.companyId = user.companyId)
    (hfresh : ∀ i ∈ st.invoices, i.id ≠ st.nextInvoiceId)
    (hhalf : (req.paymentAmount + req.paymentAmount * (4 / 100)
        + req.paymentAmount * (4 / 100) * (10 / 100)) * 100 = k + 1 / 2) :
    ∃ inv st1, InvoiceService.CreateInvoice st now userID req = (Except.ok inv, st1) ∧
      inv.invoiceAmount = ((k : ℚ) + 1) / 100 ∧
      inv.fee = req.paymentAmount * (4 / 100) ∧
      inv.consumptionTax = req.paymentAmount * (4 / 100) * (10 / 100) ∧
      st1.invoices = st.invoices ++
        [{ inv with company := none, businessPartner := none }] := by
  obtain ⟨inv, st1, hrun, hpa, hfee, htax, htotal, hfr, htr, hcid, hstat, hdue, hiss,
    hid, hcs, hus, hbs, hinvs⟩ :=
    @createInvoice_ok_spec st now userID req user partner hu hp hsame hfresh
  have hk : 0 ≤ k := by
    by_contra hneg
    push_neg at hneg
    have hk1 : k ≤ -1 := by omega
    have hq : ((k : ℚ) + 1 / 2) ≤ -1 + 1 / 2 := by
      have : (k : ℚ) ≤ -1 := by exact_mod_cast hk1
      linarith
    have hpos2 : 0 < (req.paymentAmount + req.paymentAmount * (4 / 100)
        + req.paymentAmount * (4 / 100) * (10 / 100)) * 100 := by nlinarith
    rw [hhalf] at hpos2
    linarith
  have hround : goRound ((k : ℚ) + 1 / 2) = (k : ℚ) + 1 := by
    unfold goRound
    rw [if_pos (by positivity)]
    have : ((k : ℚ) + 1 / 2) + 1 / 2 = ((k + 1 : ℤ) : ℚ) := by push_cast; ring
    rw [this, Int.floor_intCast]
    push_cast
    ring
  refine ⟨inv, st1, hrun, ?_, hfee, htax, hinvs⟩
  rw [htotal, hhalf, hround]

theorem createInvoice_rounds_half_away_from_zero_witness :
    ((5 : ℚ) / 4 + (5 : ℚ) / 4 * (4 / 100) + (5 : ℚ) / 4 * (4 / 100) * (10 / 100)) * 100
      = (130 : ℤ) + 1 / 2 ∧
    ∃ inv st1, InvoiceService.CreateInvoice sampleState 5 1
        { businessPartnerId := 1, paymentAmount := 5 / 4, paymentDueDate := 30 }
        = (Except.ok inv, st1) ∧
      inv.invoiceAmount = 131 / 100 ∧
      inv.fee = 5 / 4 * (4 / 100) ∧
      inv.consumptionTax = 5 / 4 * (4 / 100) * (10 / 100) := by
  refine ⟨by norm_num, ?_⟩
  obtain ⟨inv, st1, hrun, htotal, hfee, htax, hrest⟩ :=
    createInvoice_rounds_half_away_from_zero sampleState 5 1
      { businessPartnerId := 1, paymentAmount := 5 / 4, paymentDueDate := 30 }
      { sampleUser1 with company := some sampleCompany1 } samplePartner1 130
      (by norm_num) rfl rfl rfl (by simp [sampleState]) (by norm_num)
  refine ⟨inv, st1, hrun, ?_, hfee, htax⟩
  rw [htotal]
  norm_num



/-- Insertion permutes. -/
theorem insertByDueDateDesc_perm (x : Invoice) (l : List Invoice) :
    (insertByDueDateDesc x l).Perm (x :: l) := by
  induction l with
  | nil => exact List.Perm.refl _
  | cons y ys ih =>
    unfold insertByDueDateDesc
    split
    · exact List.Perm.refl _
    · exact (List.Perm.cons y ih).trans (List.Perm.swap x y ys)

/-- Sorting permutes. -/
theorem sortByDueDateDesc_perm (l : List Invoice) :
    (sortByDueDateDesc l).Perm l := by
  induction l with
  | nil => exact List.Perm.refl _
  | cons x xs ih =>
    exact (insertByDueDateDesc_perm x (sortByDueDateDesc xs)).trans (List.Perm.cons x ih)

/-- Membership in an insertion. -/
theorem mem_insertByDueDateDesc {a x : Invoice} {l : List Invoice} :
    a ∈ insertByDueDateDesc x l ↔ a = x ∨ a ∈ l := by
  rw [(insertByDueDateDesc_perm x l).mem_iff, List.mem_cons]

/-- Insertion preserves descending sortedness. -/
theorem insertByDueDateDesc_sorted {l : List Invoice} (x : Invoice)
    (h : DueDateDescSorted l) : DueDateDescSorted (insertByDueDateDesc x l) := by
  induction l with
  | nil => simp [insertByDueDateDesc, DueDateDescSorted]
  | cons y ys ih =>
    unfold DueDateDescSorted at h
    rw [List.pairwise_cons] at h
    obtain ⟨hy, hys⟩ := h
    unfold insertByDueDateDesc
    split
    · rename_i hle
      unfold DueDateDescSorted
      rw [List.pairwise_cons]
      refine ⟨?_, ?_⟩
      · intro b hb
        rcases List.mem_cons.mp hb with rfl | hb2
        · exact hle
        · exact le_trans (hy b hb2) hle
      · rw [List.pairwise_cons]
        exact ⟨hy, hys⟩
    · rename_i hnle
      have hxy : x.paymentDueDate ≤ y.paymentDueDate := le_of_not_le hnle
      unfold DueDateDescSorted
      rw [List.pairwise_cons]
      refine ⟨?_, ih hys⟩
      intro b hb
      rcases mem_insertByDueDateDesc.mp hb with rfl | hb2
      · exact hxy
      · exact hy b hb2

/-- The realised `ORDER BY` execution is sorted descending by due date. -/
theorem sortByDueDateDesc_sorted (l : List Invoice) :
    DueDateDescSorted (sortByDueDateDesc l) := by
  induction l with
  | nil => simp [sortByDueDateDesc, DueDateDescSorted]
  | cons x xs ih => exact insertByDueDateDesc_sorted x ih



/-- `InvoiceService.GetInvoices` delegates to the repository with the caller's
company injected and with page defaulted to 1, limit defaulted to 20 and clamped
to 100. -/
theorem getInvoices_delegates
    (st : RepoState) (userID : Nat) (req : GetInvoicesRequest) (user : User)
    (hu : MySQLRepository.GetUserByID st userID = Except.ok user) :
    InvoiceService.GetInvoices st userID req = Except.ok
      (MySQLRepository.GetInvoicesByCompanyID st user.companyId
        { req with page := if req.page < 1 then 1 else req.page,
                   limit := if req.limit < 1 then 20
                            else if req.limit > 100 then 100 else req.limit }) := by
  unfold InvoiceService.GetInvoices
  rw [hu]
  dsimp only
  split_ifs <;> first | rfl | (dsimp only at *; omega)

/-- Every invoice produced by the listing query comes from a row that passes the
`WHERE` clause. -/
theorem getInvoicesByCompanyID_mem
    {st : RepoState} {cid : Nat} {req : GetInvoicesRequest} {inv : Invoice}
    (h : inv ∈ MySQLRepository.GetInvoicesByCompanyID st cid req) :
    ∃ i, i ∈ st.invoices ∧ invoiceRowMatches st cid req i = true ∧
      inv = st.attachJoins i := by
  unfold MySQLRepository.GetInvoicesByCompanyID at h
  rw [List.mem_map] at h
  obtain ⟨i, hi, rfl⟩ := h
  have hi2 : i ∈ sortByDueDateDesc (st.invoices.filter (invoiceRowMatches st cid req)) := by
    by_cases hl : req.limit > 0
    · rw [if_pos hl] at hi
      have hi3 := List.take_subset _ _ hi
      by_cases hpg : req.page > 1
      · rw [if_pos hpg] at hi3
        exact List.drop_subset _ _ hi3
      · rw [if_neg hpg] at hi3
        exact hi3
    · rw [if_neg hl] at hi
      exact hi
  have hi4 := (sortByDueDateDesc_perm _).mem_iff.mp hi2
  rw [List.mem_filter] at hi4
  exact ⟨i, hi4.1, hi4.2, rfl⟩

/-- A status filter outside the enumerated set matches no row. -/
theorem getInvoicesByCompanyID_unknown_status
    (st : RepoState) (cid : Nat) (req : GetInvoicesRequest) (s : String)
    (hs : req.status = some s)
    (hnot : s ∉ (["unprocessed", "processing", "paid", "error"] : List String)) :
    MySQLRepository.GetInvoicesByCompanyID st cid req = [] := by
  have hfil : st.invoices.filter (invoiceRowMatches st cid req) = [] := by
    rw [List.filter_eq_nil_iff]
    intro i hi hmatch
    unfold invoiceRowMatches at hmatch
    rw [hs] at hmatch
    simp only [Bool.and_eq_true, beq_iff_eq, decide_eq_true_eq] at hmatch
    apply hnot
    rw [← hmatch.2]
    cases i.status <;> simp [InvoiceStatus.toString]
  unfold MySQLRepository.GetInvoicesByCompanyID
  rw [hfil]
  simp [sortByDueDateDesc]



/-- Repository pagination in uniform OFFSET/LIMIT form once parameters are
normalized. -/
theorem getInvoicesByCompanyID_paged
    (st : RepoState) (cid : Nat) (req : GetInvoicesRequest)
    (hpg : 1 ≤ req.page) (hl : 0 < req.limit) :
    MySQLRepository.GetInvoicesByCompanyID st cid req
      = (((sortByDueDateDesc (st.invoices.filter (invoiceRowMatches st cid req))).drop
          ((req.page - 1) * req.limit).toNat).take req.limit.toNat).map st.attachJoins := by
  unfold MySQLRepository.GetInvoicesByCompanyID
  dsimp only
  rw [if_pos hl]
  by_cases hp1 : req.page > 1
  · rw [if_pos hp1]
  · rw [if_neg hp1]
    have hpeq : req.page = 1 := by omega
    rw [hpeq]
    simp

/-- Claim C4: every invoice returned by the listing carries the caller's company
identifier and satisfies each supplied filter conjunctively — inclusive
`payment_due_date` bounds and exact status equality — and a status value outside
the enumerated set yields the empty list rather than an error. -/
theorem getInvoices_company_scoped_and_filter_conjunctive
    (st : RepoState) (userID : Nat) (req : GetInvoicesRequest) (user : User)
    (hu : MySQLRepository.GetUserByID st userID = Except.ok user) :
    ∃ l, InvoiceService.GetInvoices st userID req = Except.ok l ∧
      (∀ inv ∈ l, inv.companyId = user.companyId ∧
        (∀ s, req.startDate = some s → s ≤ inv.paymentDueDate) ∧
        (∀ e, req.endDate = some e → inv.paymentDueDate ≤ e) ∧
        (∀ s, req.status = some s → inv.status.toString = s)) ∧
      (∀ s, req.status = some s →
        s ∉ (["unprocessed", "processing", "paid", "error"] : List String) → l = []) := by
  refine ⟨_, getInvoices_delegates st userID req user hu, ?_, ?_⟩
  · intro inv hmem
    obtain ⟨i, hiMem, hiMatch, rfl⟩ := getInvoicesByCompanyID_mem hmem
    unfold invoiceRowMatches at hiMatch
    simp only [Bool.and_eq_true, beq_iff_eq, decide_eq_true_eq] at hiMatch
    obtain ⟨⟨⟨⟨⟨hcid, hcs⟩, hbs⟩, hstart⟩, hend⟩, hstat⟩ := hiMatch
    refine ⟨?_, ?_, ?_, ?_⟩
    · exact hcid
    · intro s hs
      rw [hs] at hstart
      simpa using hstart
    · intro e he
      rw [he] at hend
      simpa using hend
    · intro s hs
      rw [hs] at hstat
      simpa using hstat
  · intro s hs hnot
    exact getInvoicesByCompanyID_unknown_status st user.companyId _ s hs hnot

theorem getInvoices_company_scoped_and_filter_conjunctive_witness :
    ∃ l, InvoiceService.GetInvoices crossState 1
        { startDate := some 0, endDate := some 100, status := some "bogus",
          page := 1, limit := 20 } = Except.ok l ∧
      (∀ inv ∈ l, inv.companyId = 1 ∧
        (∀ s, (some (0 : Time)) = some s → s ≤ inv.paymentDueDate) ∧
        (∀ e, (some (100 : Time)) = some e → inv.paymentDueDate ≤ e) ∧
        (∀ s, (some "bogus") = some s → inv.status.toString = s)) ∧
      l = [] := by
  obtain ⟨l, hrun, hmem, hempty⟩ :=
    getInvoices_company_scoped_and_filter_conjunctive crossState 1
      { startDate := some 0, endDate := some 100, status := some "bogus",
        page := 1, limit := 20 }
      { sampleUser1 with company := some sampleCompany1 } rfl
  exact ⟨l, hrun, hmem, hempty "bogus" rfl (by decide)⟩



/-- Claim C7: pagination parameters are normalized — `page < 1` becomes 1,
`limit < 1` becomes 20, `limit > 100` becomes 100 — and the query then takes
`limit` rows after dropping `(page - 1) * limit`; when `limit <= 0` the repository
applies no limit or offset clause at all. -/
theorem getInvoices_pagination_normalized_and_applied :
    (∀ (st : RepoState) (cid : Nat) (req : GetInvoicesRequest), req.limit ≤ 0 →
      MySQLRepository.GetInvoicesByCompanyID st cid req
        = (sortByDueDateDesc (st.invoices.filter (invoiceRowMatches st cid req))).map
            st.attachJoins) ∧
    (∀ (st : RepoState) (userID : Nat) (req : GetInvoicesRequest) (user : User),
      MySQLRepository.GetUserByID st userID = Except.ok user →
      ∃ p l, p = (if req.page < 1 then 1 else req.page) ∧
        l = (if req.limit < 1 then 20 else if req.limit > 100 then 100 else req.limit) ∧
        1 ≤ p ∧ 1 ≤ l ∧ l ≤ 100 ∧
        InvoiceService.GetInvoices st userID req = Except.ok
          ((((sortByDueDateDesc (st.invoices.filter
              (invoiceRowMatches st user.companyId
                { req with page := p, limit := l }))).drop
              ((p - 1) * l).toNat).take l.toNat).map st.attachJoins)) := by
  constructor
  · intro st cid req hl
    unfold MySQLRepository.GetInvoicesByCompanyID
    dsimp only
    rw [if_neg (not_lt.mpr hl)]
  · intro st userID req user hu
    have hp1 : (1 : Int) ≤ (if req.page < 1 then 1 else req.page) := by
      split_ifs <;> omega
    have hl1 : (0 : Int) < (if req.limit < 1 then 20
        else if req.limit > 100 then 100 else req.limit) := by
      split_ifs <;> omega
    refine ⟨_, _, rfl, rfl, hp1, hl1, ?_, ?_⟩
    · split_ifs <;> omega
    · rw [getInvoices_delegates st userID req user hu,
        getInvoicesByCompanyID_paged st user.companyId
          { req with page := if req.page < 1 then 1 else req.page,
                     limit := if req.limit < 1 then 20
                              else if req.limit > 100 then 100 else req.limit } hp1 hl1]

theorem getInvoices_pagination_normalized_and_applied_witness :
    MySQLRepository.GetInvoicesByCompanyID crossState 2
        { startDate := none, endDate := none, status := none, page := 0, limit := -3 }
      = (sortByDueDateDesc (crossState.invoices.filter
          (invoiceRowMatches crossState 2
            { startDate := none, endDate := none, status := none,
              page := 0, limit := -3 }))).map crossState.attachJoins ∧
    (∃ p l, p = (if (0 : Int) < 1 then 1 else (0 : Int)) ∧
      l = (if (500 : Int) < 1 then 20 else if (500 : Int) > 100 then 100 else (500 : Int)) ∧
      (1 : Int) ≤ p ∧ (1 : Int) ≤ l ∧ l ≤ 100 ∧
      InvoiceService.GetInvoices crossState 1
          { startDate := none, endDate := none, status := none, page := 0, limit := 500 }
        = Except.ok
          ((((sortByDueDateDesc (crossState.invoices.filter
              (invoiceRowMatches crossState 1
                { startDate := none, endDate := none, status := none,
                  page := p, limit := l }))).drop
              ((p - 1) * l).toNat).take l.toNat).map crossState.attachJoins)) := by
  constructor
  · exact getInvoices_pagination_normalized_and_applied.1 crossState 2
      { startDate := none, endDate := none, status := none, page := 0, limit := -3 }
      (by norm_num)
  · exact getInvoices_pagination_normalized_and_applied.2 crossState 1
      { startDate := none, endDate := none, status := none, page := 0, limit := 500 }
      { sampleUser1 with company := some sampleCompany1 } rfl

/-- Claim C8, counterexample: two invoices sharing a `payment_due_date` can be
returned in either order while satisfying everything
`ORDER BY payment_due_date DESC` constrains, so tie order is not a deterministic
function of the rows — insertion order or identifier is not enforced. -/
theorem order_by_due_date_ties_undetermined :
    SqlOrderByDueDateDesc [tieInvoiceA, tieInvoiceB] [tieInvoiceA, tieInvoiceB] ∧
    SqlOrderByDueDateDesc [tieInvoiceA, tieInvoiceB] [tieInvoiceB, tieInvoiceA] ∧
    ([tieInvoiceA, tieInvoiceB] : List Invoice) ≠ [tieInvoiceB, tieInvoiceA] := by
  refine ⟨⟨List.Perm.refl _, ?_⟩, ⟨List.Perm.swap _ _ _, ?_⟩, ?_⟩
  · unfold DueDateDescSorted
    simp [List.pairwise_cons, tieInvoiceB, tieInvoiceA]
  · unfold DueDateDescSorted
    simp [List.pairwise_cons, tieInvoiceB, tieInvoiceA]
  · intro h
    rw [List.cons.injEq] at h
    exact absurd (congrArg Invoice.id h.1) (by decide)

/-- Claim C8, amended: every listing result is ordered by `payment_due_date`
descending; the query has no secondary sort key, so ties are not further
ordered. -/
theorem getInvoices_sorted_by_due_date_desc
    (st : RepoState) (cid : Nat) (req : GetInvoicesRequest) :
    DueDateDescSorted (MySQLRepository.GetInvoicesByCompanyID st cid req) := by
  unfold DueDateDescSorted MySQLRepository.GetInvoicesByCompanyID
  dsimp only
  refine List.pairwise_map.mpr ?_
  have hsorted := sortByDueDateDesc_sorted (st.invoices.filter (invoiceRowMatches st cid req))
  unfold DueDateDescSorted at hsorted
  by_cases hl : req.limit > 0
  · rw [if_pos hl]
    by_cases hpg : req.page > 1
    · rw [if_pos hpg]
      exact List.Pairwise.imp (fun h => h)
        (List.Pairwise.sublist ((List.take_sublist _ _).trans (List.drop_sublist _ _)) hsorted)
    · rw [if_neg hpg]
      exact List.Pairwise.imp (fun h => h)
        (List.Pairwise.sublist (List.take_sublist _ _) hsorted)
  · rw [if_neg hl]
    exact List.Pairwise.imp (fun h => h) hsorted

end SuperPayment
